import Mathlib

/-!
Verification of the bulk price-update preparation tool (src/app.py).

We shallowly embed the core pipeline: the Normalizer (normalize_sku,
clean_price_series), the Reference Resolver (apply_status_lookup), the
Validator (validate_for_download), the Template Writer
(fill_price_template) and the refresh handler.

Modelling conventions:
- A pandas/python cell value is a `Cell`: `Cell.none` models None/NaN,
  `Cell.str` a string, `Cell.num` a float (modelled as a rational).
- Python str() of a cell is `pyStr`; NaN stringifies to "nan".
- str.strip() is `pyStrip` (ASCII whitespace).
- pd.to_numeric(..., errors="coerce") on a single value is `toNumeric`:
  it tolerates surrounding whitespace and parses an optionally signed
  decimal numeral (exponent forms are not modelled; no claim needs them),
  yielding `Option Rat` with `none` for NaN.
- A DataFrame of the input table is a `List Row`; the reference sheet is
  a `StatusTable` whose rows are column-name-indexed cell maps, so that
  missing columns can be expressed.
-/

namespace PriceUpdate

/-- A python cell value: None/NaN, a string, or a float (as a rational). -/
inductive Cell where
  | none : Cell
  | str : String → Cell
  | num : ℚ → Cell
  deriving DecidableEq

/-- pd.isna on a single cell. -/
def isna : Cell → Bool
  | Cell.none => true
  | _ => false

def wsChar (c : Char) : Bool := c.isWhitespace

/-- Characters kept by the price-cleaning replaces: everything except
"," and the currency glyphs. -/
def keepChar (c : Char) : Bool := !(c = ',' || c = '₹' || c = '$')

/-- str.strip() on a character list. -/
def trimChars (l : List Char) : List Char :=
  ((l.dropWhile wsChar).reverse.dropWhile wsChar).reverse

/-- str.strip(): trims leading and trailing whitespace. -/
def pyStrip (s : String) : String := String.mk (trimChars s.data)

/-- str.lower() (ASCII, which is all the source compares). -/
def pyLower (s : String) : String := String.mk (s.data.map Char.toLower)

/-- .str.replace(",","").replace("₹","").replace("$","") on a char list. -/
def deglyphChars (l : List Char) : List Char := l.filter keepChar

/-- .str.replace(",","").replace("₹","").replace("$","") on a string. -/
def removeGlyphs (s : String) : String := String.mk (deglyphChars s.data)

/-- Digits of a numeral to a natural number. -/
def digitsToNat (l : List Char) : ℕ :=
  l.foldl (fun n c => 10 * n + (c.toNat - 48)) 0

/-- Parse an unsigned decimal numeral (digits, optionally with one dot). -/
def parseUnsignedChars (l : List Char) : Option ℚ :=
  let ip := l.takeWhile (fun c => c.isDigit)
  let rest := l.dropWhile (fun c => c.isDigit)
  match rest with
  | [] => if ip.isEmpty then Option.none else Option.some (mkRat (digitsToNat ip) 1)
  | c :: frac =>
    if c = '.' && frac.all (fun d => d.isDigit) && !(ip.isEmpty && frac.isEmpty) then
      Option.some (mkRat (digitsToNat (ip ++ frac)) (10 ^ frac.length))
    else
      Option.none

/-- Parse an optionally signed decimal numeral. -/
def parseRatChars (l : List Char) : Option ℚ :=
  match l with
  | '-' :: rest => (parseUnsignedChars rest).map (fun q => -q)
  | '+' :: rest => parseUnsignedChars rest
  | _ => parseUnsignedChars l

/-- pd.to_numeric(..., errors="coerce") on one string: tolerates
surrounding whitespace, `none` models NaN. -/
def toNumeric (s : String) : Option ℚ := parseRatChars (trimChars s.data)

/-- Fractional decimal digits of rem/d, up to `fuel` digits. -/
def fracDigits (d : ℕ) : ℕ → ℕ → List Char
  | _, 0 => []
  | rem, fuel + 1 =>
    if rem = 0 then []
    else
      let rem10 := rem * 10
      Char.ofNat (48 + rem10 / d) :: fracDigits d (rem10 % d) fuel

/-- Model of python str() on a float: sign, integer part, a dot, and the
fractional digits (at least one, trailing zeros omitted). -/
def pyFloatStr (q : ℚ) : String :=
  let sign := if q < 0 then "-" else ""
  let n := q.num.natAbs
  let d := q.den
  let fds := fracDigits d (n % d) 17
  sign ++ toString (n / d) ++ "." ++ String.mk (if fds.isEmpty then ['0'] else fds)

/-- Python str() of a cell; NaN stringifies to "nan". -/
def pyStr : Cell → String
  | Cell.none => "nan"
  | Cell.str s => s
  | Cell.num q => pyFloatStr q

/-- normalize_sku from src/app.py: None/NaN collapse to "", otherwise
stringify, strip, and map "nan"/"none" (case-insensitive) to "". -/
def normalize_sku (c : Cell) : String :=
  match c with
  | Cell.none => ""
  | c =>
    let s := pyStrip (pyStr c)
    if pyLower s = "nan" || pyLower s = "none" then "" else s

/-- is_unpublished from src/app.py: any status containing "unpublished"
(case-insensitive, after strip) is treated as unpublished. -/
def is_unpublished (c : Cell) : Bool :=
  match c with
  | Cell.none => false
  | c => decide ("unpublished".data <:+: (pyLower (pyStrip (pyStr c))).data)

/-- One element of clean_price_series from src/app.py: NaN becomes "",
stringify, strip, drop "," "₹" "$", then to_numeric with coercion. -/
def clean_price (c : Cell) : Option ℚ :=
  let s0 := match c with
    | Cell.none => ""
    | c => pyStr c
  let s1 := pyStrip s0
  let s2 := removeGlyphs s1
  toNumeric s2

/-- parsePrice as the spec words it: treat null/NaN as empty, stringify,
strip commas and the currency glyphs, trim whitespace, then attempt a
numeric parse, null on failure or emptiness. -/
def spec_parsePrice (c : Cell) : Option ℚ :=
  let s0 := match c with
    | Cell.none => ""
    | c => pyStr c
  let s1 := removeGlyphs s0
  let s2 := pyStrip s1
  parseRatChars s2.data

/-- A row of the user table: the "SKU", "New Price", "Publish Status" and
"Current Price" cells. -/
structure Row where
  sku : Cell
  newPrice : Cell
  publishStatus : Cell
  currentPrice : Cell
  deriving DecidableEq

/-- A writable output record: columns "SKU" and "New_Price" of
writable_out in validate_for_download. -/
structure WRow where
  sku : String
  newPrice : ℚ
  deriving DecidableEq

/-- The 4-tuple returned by validate_for_download. -/
structure ValidationResult where
  hardErrors : List String
  notFoundSKUs : List String
  unpublishedSKUs : List String
  writableRows : List WRow
  deriving DecidableEq

/-- Normalized SKU of a row, as computed by d["SKU"].apply(normalize_sku). -/
def skuN (r : Row) : String := normalize_sku r.sku

/-- Parsed price of a row, as computed by clean_price_series(d["New Price"]). -/
def npN (r : Row) : Option ℚ := clean_price r.newPrice

/-- The non-blank filter: normalized SKU non-empty or parsed price non-null. -/
def nonblankRows (df : List Row) : List Row :=
  df.filter (fun r => decide (skuN r ≠ "") || (npN r).isSome)

/-- The "SKU Not Found" mask: Publish Status, stringified and stripped,
equals "SKU Not Found". -/
def notFoundB (r : Row) : Bool := pyStrip (pyStr r.publishStatus) = "SKU Not Found"

/-- Helper for uniqueList: skip values already seen. -/
def uniqueAux (seen : List String) : List String → List String
  | [] => []
  | s :: rest =>
    if s ∈ seen then uniqueAux seen rest else s :: uniqueAux (s :: seen) rest

/-- Series.unique(): distinct values in order of first occurrence. -/
def uniqueList (l : List String) : List String := uniqueAux [] l

/-- The SKUs of the rows in "SKU Not Found" state, among non-blank rows. -/
def notFoundSkusOf (nb : List Row) : List String :=
  (nb.filter (fun r => notFoundB r)).map skuN

/-- The duplicated non-empty values of a SKU series: values occurring at
least twice, excluding "", distinct and in first-occurrence order. -/
def dupesOfSkus (skus : List String) : List String :=
  uniqueList (skus.filter (fun s => decide (s ≠ "") && decide (2 ≤ skus.count s)))

/-- The duplicated non-empty SKU values among the non-blank rows (the
"dupes" local of validate_for_download). -/
def dupesOf (nb : List Row) : List String := dupesOfSkus (nb.map skuN)

/-- The ordered hard-error list of validate_for_download (after the two
short-circuit branches). -/
def hardErrorsOf (nb : List Row) : List String :=
  (if nb.any (fun r => skuN r = "") then ["Some SKU values are blank."] else [])
    ++ (if nb.any (fun r => (npN r).isNone) then
          ["Some New Price values are blank or not a number."] else [])
    ++ (if nb.any (fun r => match npN r with
          | Option.some q => decide (q ≤ 0)
          | Option.none => false) then
          ["Some New Price values are 0 or negative."] else [])
    ++ (if (notFoundSkusOf nb).isEmpty then [] else
          ["SKU Not Found on Walmart: " ++ toString (notFoundSkusOf nb).length])
    ++ (if (dupesOf nb).isEmpty then [] else
          ["Duplicate SKU found: " ++ toString (dupesOf nb).length])

/-- The unpublished-but-not-not-found SKUs among the non-blank rows. -/
def unpublishedOf (nb : List Row) : List String :=
  (nb.filter (fun r => is_unpublished r.publishStatus && !(notFoundB r))).map skuN

/-- Replace the status of an unpublished (and not not-found) row by "":
used to state that unpublished rows contribute nothing to the hard
errors. -/
def scrubUnpublished (r : Row) : Row :=
  if is_unpublished r.publishStatus && !(notFoundB r) then
    { r with publishStatus := Cell.str "" }
  else r

/-- The writable filter of validate_for_download. -/
def writableFilter (r : Row) : Bool :=
  decide (skuN r ≠ "") &&
    (match npN r with
      | Option.some q => decide (0 < q)
      | Option.none => false) &&
    !(notFoundB r)

/-- writable_out: the writable rows projected to (SKU, New_Price). -/
def writableOutOf (nb : List Row) : List WRow :=
  (nb.filter writableFilter).map (fun r => ⟨skuN r, (npN r).getD 0⟩)

/-- validate_for_download from src/app.py. -/
def validate_for_download (df : List Row) : ValidationResult :=
  if df.isEmpty then ⟨["No rows found."], [], [], []⟩
  else if (nonblankRows df).isEmpty then ⟨["All rows are blank."], [], [], []⟩
  else ⟨hardErrorsOf (nonblankRows df), notFoundSkusOf (nonblankRows df),
    unpublishedOf (nonblankRows df), writableOutOf (nonblankRows df)⟩

/-- A row of the external reference sheet after column projection. -/
structure RefEntry where
  sku : String
  status : Cell
  price : Cell
  deriving DecidableEq

/-- The external reference sheet: its column names and its rows, each row
a map from column name to cell (so missing columns are expressible). -/
structure StatusTable where
  cols : List String
  rows : List (String → Cell)

def GSHEET_SKU_COL : String := "SKU"
def GSHEET_STATUS_COL : String := "Publish Status"
def GSHEET_PRICE_COL : String := "Price"

/-- The required reference-sheet columns (the python set literal
\x7bGSHEET_SKU_COL, GSHEET_STATUS_COL, GSHEET_PRICE_COL\x7d, with its
iteration order fixed to the literal order). -/
def requiredCols : List String := [GSHEET_SKU_COL, GSHEET_STATUS_COL, GSHEET_PRICE_COL]

/-- drop_duplicates(subset=["SKU"], keep="last"): keep the last occurrence
of each SKU, in positional order. -/
def dedupKeepLast : List RefEntry → List RefEntry
  | [] => []
  | e :: rest =>
    let r := dedupKeepLast rest
    if r.any (fun x => x.sku = e.sku) then r else e :: r

/-- The deduplicated reference entries: normalize reference SKUs, drop
blank-SKU rows, deduplicate keeping the last occurrence. -/
def mkRefEntries (sdf : StatusTable) : List RefEntry :=
  dedupKeepLast
    ((sdf.rows.map (fun rr =>
        ⟨normalize_sku (rr GSHEET_SKU_COL), rr GSHEET_STATUS_COL, rr GSHEET_PRICE_COL⟩))
      |>.filter (fun e => e.sku ≠ ""))

/-- Lookup in the deduplicated reference entries (the dict built by
zip over the deduplicated frame: keys are unique, so positional find
is the dict lookup). -/
def refFind (m : List RefEntry) (k : String) : Option RefEntry :=
  m.find? (fun e => e.sku = k)

/-- get_status from apply_status_lookup. -/
def get_status (m : List RefEntry) (sku : String) : String :=
  if sku = "" then ""
  else
    match refFind m sku with
    | Option.some e => pyStr e.status
    | Option.none => "SKU Not Found"

/-- get_curr_price from apply_status_lookup. -/
def get_curr_price (m : List RefEntry) (sku : String) : Cell :=
  if sku = "" then Cell.str ""
  else
    match refFind m sku with
    | Option.none => Cell.str ""
    | Option.some e => if isna e.price then Cell.str "" else e.price

/-- The schema-error message: "Google Sheet must have columns: " followed
by the comma-joined required column names. -/
def schemaErrMsg : String :=
  "Google Sheet must have columns: " ++ String.intercalate ", " requiredCols

/-- apply_status_lookup from src/app.py: normalize the SKU column in the
copied table, check the reference-sheet schema, build the deduplicated
lookup, and overwrite the Publish Status / Current Price columns. The
python raise is modelled as the error branch of Except. -/
def apply_status_lookup (input : List Row) (sdf : StatusTable) :
    Except String (List Row) :=
  if requiredCols.all (fun c => sdf.cols.contains c) then
    let m := mkRefEntries sdf
    Except.ok (input.map (fun r =>
      let k := normalize_sku r.sku
      { sku := Cell.str k
        newPrice := r.newPrice
        publishStatus := Cell.str (get_status m k)
        currentPrice := get_curr_price m k }))
  else Except.error schemaErrMsg

/-- The row transformation performed by a successful apply_status_lookup:
SKU normalized in place, Publish Status and Current Price overwritten
from the lookup, New Price untouched. -/
def lookupRow (m : List RefEntry) (r : Row) : Row :=
  let k := normalize_sku r.sku
  { sku := Cell.str k
    newPrice := r.newPrice
    publishStatus := Cell.str (get_status m k)
    currentPrice := get_curr_price m k }

/-- The "Failed to read Google Sheet..." message of the refresh handler,
with the underlying exception text appended. -/
def refreshErrMsg (cause : String) : String :=
  "Failed to read Google Sheet. Make sure sharing is correct. Error: " ++ cause

/-- The refresh handler of src/app.py: fetch the sheet and apply the
lookup inside try; on success replace the session table, on any failure
keep the table and surface the message. The fetch outcome
(load_status_sheet) is an input: ok is a fetched frame, error a
network/parse failure's text. Returns the new session table and the
surfaced error message, if any. -/
def refresh_handler (fetched : Except String StatusTable) (table : List Row) :
    List Row × Option String :=
  match fetched with
  | Except.error e => (table, Option.some (refreshErrMsg e))
  | Except.ok sdf =>
    match apply_status_lookup table sdf with
    | Except.error e => (table, Option.some (refreshErrMsg e))
    | Except.ok out => (out, Option.none)

def START_ROW : ℕ := 7

def COL_SKU : Char := 'D'

def COLS_PRICE : List Char := ['E', 'F', 'G']

/-- The cells of a worksheet, addressed by column letter and row number;
Cell.none is an empty cell. -/
def Cells : Type := Char → ℕ → Cell

/-- The loaded template workbook: its active sheet's max_row and cells. -/
structure Workbook where
  maxRow : ℕ
  cells : Cells

/-- ws[f"\x7bc\x7d\x7br\x7d"].value = v. -/
def setCell (w : Cells) (c : Char) (r : ℕ) (v : Cell) : Cells :=
  fun c' r' => if c' = c ∧ r' = r then v else w c' r'

/-- One iteration of the clearing loop: blank the SKU cell and the three
price cells of row r. -/
def clearRowCells (w : Cells) (r : ℕ) : Cells :=
  COLS_PRICE.foldl (fun w' c => setCell w' c r Cell.none)
    (setCell w COL_SKU r Cell.none)

/-- The clearing loop: blank n rows starting at row r. -/
def clearRows (w : Cells) (r : ℕ) : ℕ → Cells
  | 0 => w
  | n + 1 => clearRows (clearRowCells w r) (r + 1) n

/-- One iteration of the writing loop: SKU (stringified and stripped)
into the primary column, the price into each price column. -/
def writeRowCells (w : Cells) (r : ℕ) (x : WRow) : Cells :=
  COLS_PRICE.foldl (fun w' c => setCell w' c r (Cell.num x.newPrice))
    (setCell w COL_SKU r (Cell.str (pyStrip x.sku)))

/-- The writing loop: one row per record, in order, from row r. -/
def writeRows (w : Cells) (r : ℕ) : List WRow → Cells
  | [] => w
  | x :: xs => writeRows (writeRowCells w r x) (r + 1) xs

/-- fill_price_template from src/app.py: clear rows START_ROW through
max(ws.max_row, START_ROW + len(df) + 50) inclusive, then write the
records from START_ROW. -/
def fill_price_template (wb : Workbook) (df : List WRow) : Workbook :=
  let maxClear := max wb.maxRow (START_ROW + df.length + 50)
  let cleared := clearRows wb.cells START_ROW (maxClear + 1 - START_ROW)
  { maxRow := wb.maxRow, cells := writeRows cleared START_ROW df }

/-! Helper lemmas about trimming and glyph removal. -/

theorem ws_keep {c : Char} (h : wsChar c = true) : keepChar c = true := by
  have h' : ((c = ' ' ∨ c = '\t') ∨ c = '\r') ∨ c = '\n' := by
    simpa [wsChar, Char.isWhitespace] using h
  rcases h' with ((h' | h') | h') | h' <;> subst h' <;> decide

theorem filter_keep_of_ws {a : List Char} (ha : ∀ c ∈ a, wsChar c = true) :
    a.filter keepChar = a :=
  List.filter_eq_self.mpr (fun c hc => ws_keep (ha c hc))

theorem trimChars_ws_append (a x : List Char) (ha : ∀ c ∈ a, wsChar c = true) :
    trimChars (a ++ x) = trimChars x := by
  unfold trimChars
  rw [List.dropWhile_append_of_pos ha]

theorem trimChars_append_ws (w b : List Char) (hb : ∀ c ∈ b, wsChar c = true) :
    trimChars (w ++ b) = trimChars w := by
  unfold trimChars
  rw [List.dropWhile_append]
  by_cases hw : (w.dropWhile wsChar).isEmpty
  · rw [if_pos hw]
    rw [List.dropWhile_eq_nil_iff.mpr hb, List.isEmpty_iff.mp hw]
  · rw [if_neg hw, List.reverse_append,
      List.dropWhile_append_of_pos (fun c hc => hb c (List.mem_reverse.mp hc))]

theorem deglyphChars_reverse (l : List Char) :
    deglyphChars l.reverse = (deglyphChars l).reverse := by
  unfold deglyphChars
  exact List.filter_reverse keepChar l

/-- Trimming before removing the glyphs does not change the result of
trimming after removing them: the source's order of operations
(strip, then replace, then to_numeric) agrees with the spec's
(replace, then strip, then parse). -/
theorem trim_deglyph_trim (l : List Char) :
    trimChars (deglyphChars (trimChars l)) = trimChars (deglyphChars l) := by
  have ha : ∀ c ∈ l.takeWhile wsChar, wsChar c = true :=
    fun c hc => List.mem_takeWhile_imp hc
  have hc2 : ∀ c ∈ (l.dropWhile wsChar).reverse.takeWhile wsChar, wsChar c = true :=
    fun c hc => List.mem_takeWhile_imp hc
  have h1 : trimChars l = ((l.dropWhile wsChar).reverse.dropWhile wsChar).reverse := rfl
  have h2 : deglyphChars l = l.takeWhile wsChar ++ deglyphChars (l.dropWhile wsChar) := by
    unfold deglyphChars
    conv_lhs => rw [← List.takeWhile_append_dropWhile wsChar l]
    rw [List.filter_append, filter_keep_of_ws ha]
  have hu : l.dropWhile wsChar =
      ((l.dropWhile wsChar).reverse.takeWhile wsChar ++
        (l.dropWhile wsChar).reverse.dropWhile wsChar).reverse := by
    rw [List.takeWhile_append_dropWhile, List.reverse_reverse]
  have h3 : deglyphChars (l.dropWhile wsChar) =
      (deglyphChars ((l.dropWhile wsChar).reverse.dropWhile wsChar)).reverse ++
        ((l.dropWhile wsChar).reverse.takeWhile wsChar).reverse := by
    conv_lhs => rw [hu]
    unfold deglyphChars
    rw [List.filter_reverse, List.filter_append, filter_keep_of_ws hc2,
      List.reverse_append]
  calc trimChars (deglyphChars (trimChars l))
      = trimChars ((deglyphChars ((l.dropWhile wsChar).reverse.dropWhile wsChar)).reverse) := by
        rw [h1, deglyphChars_reverse]
    _ = trimChars ((deglyphChars ((l.dropWhile wsChar).reverse.dropWhile wsChar)).reverse ++
          ((l.dropWhile wsChar).reverse.takeWhile wsChar).reverse) := by
        rw [trimChars_append_ws _ _
          (fun c hc => hc2 c (List.mem_reverse.mp hc))]
    _ = trimChars (deglyphChars (l.dropWhile wsChar)) := by rw [← h3]
    _ = trimChars (l.takeWhile wsChar ++ deglyphChars (l.dropWhile wsChar)) := by
        rw [trimChars_ws_append _ _ ha]
    _ = trimChars (deglyphChars l) := by rw [← h2]

/-- clean_price_series agrees elementwise with the spec's parsePrice
description. -/
theorem clean_price_eq_spec (c : Cell) : clean_price c = spec_parsePrice c := by
  cases c with
  | none => rfl
  | str s =>
    show parseRatChars (trimChars (deglyphChars (trimChars s.data))) =
      parseRatChars (trimChars (deglyphChars s.data))
    rw [trim_deglyph_trim]
  | num q =>
    show parseRatChars (trimChars (deglyphChars (trimChars (pyFloatStr q).data))) =
      parseRatChars (trimChars (deglyphChars (pyFloatStr q).data))
    rw [trim_deglyph_trim]

/-- C6: for every raw price value, price parsing treats null/NaN as
empty, strips commas and the currency glyphs and whitespace, then
attempts a numeric parse, returning null on failure or emptiness
(stated as agreement with the spec-worded pipeline); in particular
parsePrice of the string of "₹1,200" equals 1200, and an already-numeric
input yields the same result as its stringified form. -/
theorem c6_parse_price_pipeline :
    (∀ c : Cell, clean_price c = spec_parsePrice c) ∧
      clean_price (Cell.str "₹1,200") = Option.some 1200 ∧
      (∀ q : ℚ, clean_price (Cell.num q) = clean_price (Cell.str (pyFloatStr q))) :=
  ⟨clean_price_eq_spec, by decide, fun _ => rfl⟩

/-- C7 counterexample: an empty row table has every row blank
(vacuously), yet the Validator reports "No rows found." rather than the
single hard error "All rows are blank.". -/
theorem c7_counterexample :
    (∀ r ∈ ([] : List Row), skuN r = "" ∧ npN r = Option.none) ∧
      (validate_for_download ([] : List Row)).hardErrors ≠ ["All rows are blank."] := by
  decide

/-- C7 (amended): for every row table with at least one row in which
every row is blank (normalized SKU empty and parsed price null), the
Validator short-circuits with exactly the hard error "All rows are
blank." and all other outputs empty. -/
theorem c7_all_blank_short_circuit (df : List Row) (hne : df ≠ [])
    (hblank : ∀ r ∈ df, skuN r = "" ∧ npN r = Option.none) :
    validate_for_download df = ⟨["All rows are blank."], [], [], []⟩ := by
  have h0 : df.isEmpty = false := by
    cases df with
    | nil => exact absurd rfl hne
    | cons a l => rfl
  have h1 : nonblankRows df = [] := by
    unfold nonblankRows
    rw [List.filter_eq_nil_iff]
    intro r hr
    have h := hblank r hr
    simp [h.1, h.2]
  unfold validate_for_download
  simp [h0, h1]

/-- C7 witness: a one-row table whose row is blank. -/
theorem c7_witness :
    validate_for_download [⟨Cell.str "", Cell.str "", Cell.str "", Cell.str ""⟩]
      = ⟨["All rows are blank."], [], [], []⟩ :=
  c7_all_blank_short_circuit _ (by decide) (by decide)

/-- C8: when the fetch fails or the lookup raises, the refresh handler
leaves the row table completely unchanged and surfaces a message ending
in the underlying cause. -/
theorem c8_refresh_failure_preserves_table (fetched : Except String StatusTable)
    (table : List Row) (h : (refresh_handler fetched table).2 ≠ Option.none) :
    (refresh_handler fetched table).1 = table ∧
      (∀ e, fetched = Except.error e →
        (refresh_handler fetched table).2 = Option.some (refreshErrMsg e)) ∧
      (∀ sdf e, fetched = Except.ok sdf →
        apply_status_lookup table sdf = Except.error e →
        (refresh_handler fetched table).2 = Option.some (refreshErrMsg e)) := by
  cases fetched with
  | error e =>
    refine ⟨rfl, ?_, ?_⟩
    · intro e' he
      cases he
      rfl
    · intro sdf e' hok
      exact Except.noConfusion hok
  | ok sdf =>
    cases happ : apply_status_lookup table sdf with
    | ok out =>
      exfalso
      apply h
      show (match apply_status_lookup table sdf with
        | Except.error e => (table, Option.some (refreshErrMsg e))
        | Except.ok out => (out, Option.none)).2 = Option.none
      rw [happ]
    | error e =>
      refine ⟨?_, ?_, ?_⟩
      · show (match apply_status_lookup table sdf with
          | Except.error e => (table, Option.some (refreshErrMsg e))
          | Except.ok out => (out, Option.none)).1 = table
        rw [happ]
      · intro e' he
        exact Except.noConfusion he
      · intro sdf' e' hok happ'
        cases hok
        rw [happ] at happ'
        cases happ'
        show (match apply_status_lookup table sdf with
          | Except.error e => (table, Option.some (refreshErrMsg e))
          | Except.ok out => (out, Option.none)).2 = Option.some (refreshErrMsg e)
        rw [happ]

/-- C8 witness: a failed fetch leaves a concrete table unchanged. -/
theorem c8_witness :
    (refresh_handler (Except.error "boom")
        [⟨Cell.str "A", Cell.str "10", Cell.str "", Cell.str ""⟩]).1
      = [⟨Cell.str "A", Cell.str "10", Cell.str "", Cell.str ""⟩] :=
  (c8_refresh_failure_preserves_table (Except.error "boom")
    [⟨Cell.str "A", Cell.str "10", Cell.str "", Cell.str ""⟩] (by decide)).1

/-- C3: a reference table missing at least one required column makes the
resolve operation fail, and the error message names every missing
column. -/
theorem c3_schema_error_names_missing (input : List Row) (sdf : StatusTable)
    (h : ∃ c ∈ requiredCols, c ∉ sdf.cols) :
    apply_status_lookup input sdf = Except.error schemaErrMsg ∧
      ∀ c ∈ requiredCols, c ∉ sdf.cols → c.data <:+: schemaErrMsg.data := by
  obtain ⟨c0, hc0, hnc⟩ := h
  have hall : requiredCols.all (fun c => sdf.cols.contains c) = false := by
    rw [List.all_eq_false]
    refine ⟨c0, hc0, ?_⟩
    simpa using hnc
  refine ⟨?_, ?_⟩
  · unfold apply_status_lookup
    rw [hall]
    rfl
  · intro c hc _
    simp only [requiredCols, GSHEET_SKU_COL, GSHEET_STATUS_COL, GSHEET_PRICE_COL,
      List.mem_cons, List.not_mem_nil, or_false] at hc
    rcases hc with hc | hc | hc <;> subst hc <;> decide

/-- C3 witness: a reference table lacking only the "Price" column fails
with the schema error, whose message names "Price". -/
theorem c3_witness :
    apply_status_lookup [] ⟨["SKU", "Publish Status"], []⟩ = Except.error schemaErrMsg ∧
      "Price".data <:+: schemaErrMsg.data := by
  have h := c3_schema_error_names_missing [] ⟨["SKU", "Publish Status"], []⟩
    ⟨"Price", by decide, by decide⟩
  exact ⟨h.1, h.2 "Price" (by decide) (by decide)⟩

theorem apply_ok_eq (input : List Row) (sdf : StatusTable) (out : List Row)
    (h : apply_status_lookup input sdf = Except.ok out) :
    out = input.map (lookupRow (mkRefEntries sdf)) := by
  unfold apply_status_lookup at h
  by_cases hs : requiredCols.all (fun c => sdf.cols.contains c) = true
  · rw [if_pos hs] at h
    injection h with h
    exact h.symm
  · rw [if_neg hs] at h
    exact Except.noConfusion h

/-- C2 counterexample: a row whose SKU cell is " A " has its SKU cell
rewritten to "A" by apply_status_lookup, so the SKU column is not left
exactly as it was. -/
theorem c2_counterexample :
    apply_status_lookup [⟨Cell.str " A ", Cell.str "10", Cell.str "", Cell.str ""⟩]
        ⟨["SKU", "Publish Status", "Price"], []⟩
      = Except.ok [⟨Cell.str "A", Cell.str "10", Cell.str "SKU Not Found", Cell.str ""⟩] ∧
      Cell.str "A" ≠ Cell.str " A " := by
  exact ⟨rfl, by decide⟩

theorem zip_map_self {α β : Type _} (f : α → β) :
    ∀ l : List α, l.zip (l.map f) = l.map (fun a => (a, f a))
  | [] => rfl
  | a :: t => by
    show (a, f a) :: t.zip (t.map f) = (a, f a) :: t.map (fun a => (a, f a))
    rw [zip_map_self f t]

/-- A successful apply_status_lookup transforms each row by lookupRow
(positional pairing via zip). -/
theorem apply_ok_row (input : List Row) (sdf : StatusTable) (out : List Row)
    (h : apply_status_lookup input sdf = Except.ok out) :
    ∀ pr ∈ input.zip out, pr.2 = lookupRow (mkRefEntries sdf) pr.1 := by
  have he := apply_ok_eq input sdf out h
  subst he
  rw [zip_map_self]
  intro pr hpr
  obtain ⟨r, _, hr⟩ := List.mem_map.mp hpr
  rw [← hr]

theorem get_status_empty (m : List RefEntry) : get_status m "" = "" := rfl

theorem get_curr_price_empty (m : List RefEntry) : get_curr_price m "" = Cell.str "" := rfl

theorem get_status_not_found {m : List RefEntry} {k : String} (hk : k ≠ "")
    (hf : refFind m k = Option.none) : get_status m k = "SKU Not Found" := by
  unfold get_status
  rw [if_neg hk, hf]

theorem get_curr_price_not_found {m : List RefEntry} {k : String} (hk : k ≠ "")
    (hf : refFind m k = Option.none) : get_curr_price m k = Cell.str "" := by
  unfold get_curr_price
  rw [if_neg hk, hf]

theorem get_curr_price_nan {m : List RefEntry} {k : String} {e : RefEntry}
    (hk : k ≠ "") (hf : refFind m k = Option.some e) (hna : isna e.price = true) :
    get_curr_price m k = Cell.str "" := by
  unfold get_curr_price
  rw [if_neg hk, hf]
  show (if isna e.price = true then Cell.str "" else e.price) = Cell.str ""
  rw [if_pos hna]

/-- C2 (amended): apply_status_lookup overwrites only the PublishStatus,
CurrentPrice and SKU columns; NewPrice is left exactly as it was, and
each SKU cell is replaced by its normalized string (so a row whose SKU
cell already holds its normalized form keeps it unchanged). -/
theorem c2_overwrites_status_price_normalizes_sku (input : List Row)
    (sdf : StatusTable) (out : List Row)
    (h : apply_status_lookup input sdf = Except.ok out) :
    out.length = input.length ∧
      ∀ pr ∈ input.zip out,
        pr.2.newPrice = pr.1.newPrice ∧
        pr.2.sku = Cell.str (normalize_sku pr.1.sku) := by
  have he := apply_ok_eq input sdf out h
  refine ⟨by rw [he, List.length_map], ?_⟩
  intro pr hpr
  rw [apply_ok_row input sdf out h pr hpr]
  exact ⟨rfl, rfl⟩

/-- C2 witness: on a concrete table the NewPrice cell survives and the
already-normalized SKU cell is unchanged. -/
theorem c2_witness :
    (Prod.mk (⟨Cell.str "A", Cell.str "10", Cell.str "", Cell.str ""⟩ : Row)
        (⟨Cell.str "A", Cell.str "10", Cell.str "SKU Not Found", Cell.str ""⟩ : Row)).2.newPrice
      = Cell.str "10" ∧
      (Prod.mk (⟨Cell.str "A", Cell.str "10", Cell.str "", Cell.str ""⟩ : Row)
        (⟨Cell.str "A", Cell.str "10", Cell.str "SKU Not Found", Cell.str ""⟩ : Row)).2.sku
      = Cell.str "A" := by
  have h := c2_overwrites_status_price_normalizes_sku
    [⟨Cell.str "A", Cell.str "10", Cell.str "", Cell.str ""⟩]
    ⟨["SKU", "Publish Status", "Price"], []⟩
    [⟨Cell.str "A", Cell.str "10", Cell.str "SKU Not Found", Cell.str ""⟩] rfl
  have h2 := h.2 (Prod.mk (⟨Cell.str "A", Cell.str "10", Cell.str "", Cell.str ""⟩ : Row)
    (⟨Cell.str "A", Cell.str "10", Cell.str "SKU Not Found", Cell.str ""⟩ : Row)) (by decide)
  exact ⟨h2.1, h2.2⟩

/-- C4: a non-empty normalized SKU absent from the processed reference
entries (normalized, blank-dropped, deduplicated last-wins) resolves to
PublishStatus "SKU Not Found" and blank CurrentPrice; a present SKU
whose reference price is NaN resolves to a blank CurrentPrice. -/
theorem c4_unseen_and_nan_price (input : List Row) (sdf : StatusTable)
    (out : List Row) (h : apply_status_lookup input sdf = Except.ok out) :
    ∀ pr ∈ input.zip out,
      (normalize_sku pr.1.sku ≠ "" →
        refFind (mkRefEntries sdf) (normalize_sku pr.1.sku) = Option.none →
        pr.2.publishStatus = Cell.str "SKU Not Found" ∧
          pr.2.currentPrice = Cell.str "") ∧
      (∀ e, normalize_sku pr.1.sku ≠ "" →
        refFind (mkRefEntries sdf) (normalize_sku pr.1.sku) = Option.some e →
        isna e.price = true →
        pr.2.currentPrice = Cell.str "") := by
  intro pr hpr
  rw [apply_ok_row input sdf out h pr hpr]
  constructor
  · intro hk hf
    exact ⟨congrArg Cell.str (get_status_not_found hk hf),
      get_curr_price_not_found hk hf⟩
  · intro e hk hf hna
    exact get_curr_price_nan hk hf hna

/-- C4 witness: a concrete unseen SKU gets "SKU Not Found" and blank
price; a concrete present SKU with NaN reference price gets blank
price. -/
theorem c4_witness :
    ((Prod.mk (⟨Cell.str "X", Cell.str "1", Cell.str "", Cell.str ""⟩ : Row)
        (⟨Cell.str "X", Cell.str "1", Cell.str "SKU Not Found", Cell.str ""⟩ : Row)).2.publishStatus
      = Cell.str "SKU Not Found") ∧
      ((Prod.mk (⟨Cell.str "B", Cell.str "2", Cell.str "", Cell.str ""⟩ : Row)
        (⟨Cell.str "B", Cell.str "2", Cell.str "Published", Cell.str ""⟩ : Row)).2.currentPrice
      = Cell.str "") := by
  have h := c4_unseen_and_nan_price
    [⟨Cell.str "X", Cell.str "1", Cell.str "", Cell.str ""⟩,
      ⟨Cell.str "B", Cell.str "2", Cell.str "", Cell.str ""⟩]
    ⟨["SKU", "Publish Status", "Price"],
      [fun c => if c = "SKU" then Cell.str "B"
        else if c = "Publish Status" then Cell.str "Published" else Cell.none]⟩
    [⟨Cell.str "X", Cell.str "1", Cell.str "SKU Not Found", Cell.str ""⟩,
      ⟨Cell.str "B", Cell.str "2", Cell.str "Published", Cell.str ""⟩] rfl
  have h1 := h (Prod.mk (⟨Cell.str "X", Cell.str "1", Cell.str "", Cell.str ""⟩ : Row)
    (⟨Cell.str "X", Cell.str "1", Cell.str "SKU Not Found", Cell.str ""⟩ : Row)) (by decide)
  have h2 := h (Prod.mk (⟨Cell.str "B", Cell.str "2", Cell.str "", Cell.str ""⟩ : Row)
    (⟨Cell.str "B", Cell.str "2", Cell.str "Published", Cell.str ""⟩ : Row)) (by decide)
  refine ⟨(h1.1 (by decide) (by decide)).1, ?_⟩
  exact h2.2 ⟨"B", Cell.str "Published", Cell.none⟩ (by decide) (by decide) rfl

/-- C10: a row whose normalized SKU is empty resolves to PublishStatus ""
(never "SKU Not Found") and CurrentPrice "". -/
theorem c10_blank_sku_blank_status (input : List Row) (sdf : StatusTable)
    (out : List Row) (h : apply_status_lookup input sdf = Except.ok out) :
    ∀ pr ∈ input.zip out, normalize_sku pr.1.sku = "" →
      pr.2.publishStatus = Cell.str "" ∧
        pr.2.publishStatus ≠ Cell.str "SKU Not Found" ∧
        pr.2.currentPrice = Cell.str "" := by
  intro pr hpr hb
  rw [apply_ok_row input sdf out h pr hpr]
  refine ⟨?_, ?_, ?_⟩
  · show Cell.str (get_status (mkRefEntries sdf) (normalize_sku pr.1.sku)) = Cell.str ""
    rw [hb, get_status_empty]
  · show Cell.str (get_status (mkRefEntries sdf) (normalize_sku pr.1.sku))
      ≠ Cell.str "SKU Not Found"
    rw [hb, get_status_empty]
    decide
  · show get_curr_price (mkRefEntries sdf) (normalize_sku pr.1.sku) = Cell.str ""
    rw [hb, get_curr_price_empty]

/-- C10 witness: a blank-SKU row resolves to blank status and price. -/
theorem c10_witness :
    ((Prod.mk (⟨Cell.str " ", Cell.str "5", Cell.str "x", Cell.str "y"⟩ : Row)
        (⟨Cell.str "", Cell.str "5", Cell.str "", Cell.str ""⟩ : Row)).2.publishStatus
      = Cell.str "") ∧
      ((Prod.mk (⟨Cell.str " ", Cell.str "5", Cell.str "x", Cell.str "y"⟩ : Row)
        (⟨Cell.str "", Cell.str "5", Cell.str "", Cell.str ""⟩ : Row)).2.currentPrice
      = Cell.str "") := by
  have h := c10_blank_sku_blank_status
    [⟨Cell.str " ", Cell.str "5", Cell.str "x", Cell.str "y"⟩]
    ⟨["SKU", "Publish Status", "Price"], []⟩
    [⟨Cell.str "", Cell.str "5", Cell.str "", Cell.str ""⟩] rfl
    (Prod.mk (⟨Cell.str " ", Cell.str "5", Cell.str "x", Cell.str "y"⟩ : Row)
      (⟨Cell.str "", Cell.str "5", Cell.str "", Cell.str ""⟩ : Row)) (by decide) (by decide)
  exact ⟨h.1, h.2.2⟩

theorem uniqueAux_eq_nil {l seen : List String} :
    uniqueAux seen l = [] ↔ ∀ s ∈ l, s ∈ seen := by
  induction l generalizing seen with
  | nil => simp [uniqueAux]
  | cons s t ih =>
    by_cases hs : s ∈ seen
    · simp [uniqueAux, hs, ih]
    · simp [uniqueAux, hs]

theorem uniqueList_eq_nil {l : List String} : uniqueList l = [] ↔ l = [] := by
  rw [uniqueList, uniqueAux_eq_nil]
  simp [List.eq_nil_iff_forall_not_mem]

theorem writableFilter_iff (r : Row) :
    writableFilter r = true ↔
      skuN r ≠ "" ∧ (∃ q, npN r = Option.some q ∧ 0 < q) ∧ notFoundB r = false := by
  unfold writableFilter
  cases hnp : npN r with
  | none => simp [hnp]
  | some q => simp [hnp, and_assoc]

theorem pyStrip_skunotfound : pyStrip "SKU Not Found" = "SKU Not Found" := by decide

/-- The three branch shapes of validate_for_download. -/
theorem validate_cases (df : List Row) :
    validate_for_download df = ⟨["No rows found."], [], [], []⟩ ∨
      validate_for_download df = ⟨["All rows are blank."], [], [], []⟩ ∨
      validate_for_download df = ⟨hardErrorsOf (nonblankRows df),
        notFoundSkusOf (nonblankRows df), unpublishedOf (nonblankRows df),
        writableOutOf (nonblankRows df)⟩ := by
  unfold validate_for_download
  by_cases h0 : df.isEmpty = true
  · rw [if_pos h0]
    exact Or.inl rfl
  · rw [if_neg h0]
    by_cases h1 : (nonblankRows df).isEmpty = true
    · rw [if_pos h1]
      exact Or.inr (Or.inl rfl)
    · rw [if_neg h1]
      exact Or.inr (Or.inr rfl)

/-- C1 counterexample: two rows with the same SKU "A", both with positive
prices and benign statuses, are both emitted into writableRows even
though the Validator reports the duplicate hard error, so writableRows
SKUs are not unique. -/
theorem c1_counterexample :
    (validate_for_download
        [⟨Cell.str "A", Cell.str "10", Cell.str "Published", Cell.str ""⟩,
          ⟨Cell.str "A", Cell.str "20", Cell.str "Published", Cell.str ""⟩]).writableRows
      = [⟨"A", 10⟩, ⟨"A", 20⟩] ∧
      ¬ (((validate_for_download
        [⟨Cell.str "A", Cell.str "10", Cell.str "Published", Cell.str ""⟩,
          ⟨Cell.str "A", Cell.str "20", Cell.str "Published", Cell.str ""⟩]).writableRows.map
        WRow.sku).Nodup) := by
  decide

/-- C1 (amended): every writableRows record has positive parsed price and
stems from a row whose PublishStatus is not "SKU Not Found" (trimmed or
verbatim) with a non-empty normalized SKU; and whenever no
"Duplicate SKU found" hard error is reported, the writableRows SKUs are
unique. (With a duplicate hard error, duplicated SKUs do repeat.) -/
theorem c1_writable_rows (df : List Row) :
    (∀ x ∈ (validate_for_download df).writableRows, 0 < x.newPrice) ∧
      (∀ x ∈ (validate_for_download df).writableRows,
        ∃ r ∈ df, skuN r = x.sku ∧ x.sku ≠ "" ∧ npN r = Option.some x.newPrice ∧
          pyStrip (pyStr r.publishStatus) ≠ "SKU Not Found" ∧
          pyStr r.publishStatus ≠ "SKU Not Found") ∧
      ((∀ n : ℕ, ("Duplicate SKU found: " ++ toString n)
          ∉ (validate_for_download df).hardErrors) →
        ((validate_for_download df).writableRows.map WRow.sku).Nodup) := by
  rcases validate_cases df with hv | hv | hv <;> rw [hv]
  · exact ⟨by simp, by simp, fun _ => by simp⟩
  · exact ⟨by simp, by simp, fun _ => by simp⟩
  · refine ⟨?_, ?_, ?_⟩
    · intro x hx
      obtain ⟨r, hr, hxe⟩ := List.mem_map.mp hx
      have hwf := (writableFilter_iff r).mp (List.mem_filter.mp hr).2
      obtain ⟨_, ⟨q, hq, hq0⟩, _⟩ := hwf
      rw [← hxe]
      show 0 < (npN r).getD 0
      rw [hq]
      exact hq0
    · intro x hx
      obtain ⟨r, hr, hxe⟩ := List.mem_map.mp hx
      have hrnb : r ∈ nonblankRows df := (List.mem_filter.mp hr).1
      have hrdf : r ∈ df := (List.mem_filter.mp hrnb).1
      have hwf := (writableFilter_iff r).mp (List.mem_filter.mp hr).2
      obtain ⟨hne, ⟨q, hq, _⟩, hnf⟩ := hwf
      have hnfp : pyStrip (pyStr r.publishStatus) ≠ "SKU Not Found" :=
        of_decide_eq_false hnf
      refine ⟨r, hrdf, ?_, ?_, ?_, hnfp, ?_⟩
      · rw [← hxe]
      · rw [← hxe]
        exact hne
      · rw [← hxe]
        show npN r = Option.some ((npN r).getD 0)
        rw [hq]
        rfl
      · intro heq
        apply hnfp
        rw [heq, pyStrip_skunotfound]
    · intro hd
      have hdup : dupesOf (nonblankRows df) = [] := by
        cases hdu : dupesOf (nonblankRows df) with
        | nil => rfl
        | cons a t =>
          exfalso
          apply hd (dupesOf (nonblankRows df)).length
          have hie : (dupesOf (nonblankRows df)).isEmpty = false := by
            rw [hdu]
            rfl
          unfold hardErrorsOf
          simp [hie]
      have hfil := uniqueList_eq_nil.mp hdup
      rw [List.filter_eq_nil_iff] at hfil
      rw [List.nodup_iff_count_le_one]
      intro a
      show List.count a ((writableOutOf (nonblankRows df)).map WRow.sku) ≤ 1
      by_cases hmem : a ∈ (writableOutOf (nonblankRows df)).map WRow.sku
      · obtain ⟨x, hx, hxa⟩ := List.mem_map.mp hmem
        obtain ⟨r, hr, hxe⟩ := List.mem_map.mp hx
        have hrnb : r ∈ nonblankRows df := (List.mem_filter.mp hr).1
        have hwf := (writableFilter_iff r).mp (List.mem_filter.mp hr).2
        have hra : a = skuN r := by
          rw [← hxa, ← hxe]
        have hane : a ≠ "" := by
          rw [hra]
          exact hwf.1
        have hcond := hfil a (hra ▸ List.mem_map_of_mem skuN hrnb)
        simp only [Bool.and_eq_true, decide_eq_true_eq, not_and] at hcond
        have hcnt : (List.map skuN (nonblankRows df)).count a ≤ 1 := by
          have := hcond hane
          omega
        have hsub : List.Sublist ((writableOutOf (nonblankRows df)).map WRow.sku)
            ((nonblankRows df).map skuN) := by
          unfold writableOutOf
          rw [List.map_map]
          exact (List.filter_sublist (nonblankRows df)).map _
        exact le_trans (hsub.count_le a) hcnt
      · rw [List.count_eq_zero.mpr hmem]
        exact Nat.zero_le 1

/-- C1 witness: a single clean row yields a writable set whose SKUs are
unique, with no duplicate hard error reported. -/
theorem c1_witness :
    (((validate_for_download
        [⟨Cell.str "A", Cell.str "10", Cell.str "", Cell.str ""⟩]).writableRows.map
      WRow.sku).Nodup) := by
  apply (c1_writable_rows [⟨Cell.str "A", Cell.str "10", Cell.str "", Cell.str ""⟩]).2.2
  intro n hn
  have he : (validate_for_download
      [⟨Cell.str "A", Cell.str "10", Cell.str "", Cell.str ""⟩]).hardErrors = [] := by
    decide
  rw [he] at hn
  exact List.not_mem_nil _ hn

/-! C5 helper lemmas: scrubbing unpublished statuses changes nothing the
hard-error computation looks at. -/

theorem skuN_scrub (r : Row) : skuN (scrubUnpublished r) = skuN r := by
  unfold scrubUnpublished
  split <;> rfl

theorem npN_scrub (r : Row) : npN (scrubUnpublished r) = npN r := by
  unfold scrubUnpublished
  split <;> rfl

theorem notFoundB_scrub (r : Row) : notFoundB (scrubUnpublished r) = notFoundB r := by
  unfold scrubUnpublished
  split
  · rename_i h
    have h2 : notFoundB r = false := by
      simp only [Bool.and_eq_true, Bool.not_eq_true'] at h
      exact h.2
    rw [h2]
    rfl
  · rfl

theorem is_unpublished_eq (c : Cell) :
    is_unpublished c
      = decide ("unpublished".data <:+: (pyLower (pyStrip (pyStr c))).data) := by
  cases c <;> rfl

theorem unpub_not_notFound {r : Row} (h : is_unpublished r.publishStatus = true) :
    notFoundB r = false := by
  rw [is_unpublished_eq] at h
  have h' := of_decide_eq_true h
  apply decide_eq_false
  intro heq
  rw [heq] at h'
  exact absurd h' (by decide)

theorem any_comp_congr {α : Type _} (f : α → α) (p : α → Bool)
    (h : ∀ r, p (f r) = p r) : ∀ l : List α, (l.map f).any p = l.any p
  | [] => rfl
  | a :: t => by
    show (p (f a) || (t.map f).any p) = (p a || t.any p)
    rw [h a, any_comp_congr f p h t]

theorem map_skuN_scrub (l : List Row) :
    (l.map scrubUnpublished).map skuN = l.map skuN := by
  rw [List.map_map]
  exact List.map_congr_left (fun r _ => skuN_scrub r)

theorem nonblank_scrub (df : List Row) :
    nonblankRows (df.map scrubUnpublished) = (nonblankRows df).map scrubUnpublished := by
  unfold nonblankRows
  rw [List.filter_map]
  congr 1
  apply List.filter_congr
  intro r _
  show (decide (skuN (scrubUnpublished r) ≠ "") || (npN (scrubUnpublished r)).isSome) = _
  rw [skuN_scrub, npN_scrub]

theorem notFoundSkus_scrub (nb : List Row) :
    notFoundSkusOf (nb.map scrubUnpublished) = notFoundSkusOf nb := by
  unfold notFoundSkusOf
  rw [List.filter_map]
  have hf : List.filter ((fun r => notFoundB r) ∘ scrubUnpublished) nb
      = List.filter (fun r => notFoundB r) nb :=
    List.filter_congr (fun r _ => notFoundB_scrub r)
  rw [hf]
  exact map_skuN_scrub _

theorem dupes_scrub (nb : List Row) :
    dupesOf (nb.map scrubUnpublished) = dupesOf nb := by
  unfold dupesOf
  rw [map_skuN_scrub]

theorem hardErrors_scrub (nb : List Row) :
    hardErrorsOf (nb.map scrubUnpublished) = hardErrorsOf nb := by
  unfold hardErrorsOf
  rw [any_comp_congr scrubUnpublished _ (fun r => by
    show decide (skuN (scrubUnpublished r) = "") = decide (skuN r = "")
    rw [skuN_scrub])]
  rw [any_comp_congr scrubUnpublished _ (fun r => by
    show (npN (scrubUnpublished r)).isNone = (npN r).isNone
    rw [npN_scrub])]
  rw [any_comp_congr scrubUnpublished _ (fun r => by
    show (match npN (scrubUnpublished r) with
      | Option.some q => decide (q ≤ 0)
      | Option.none => false) = _
    rw [npN_scrub])]
  rw [notFoundSkus_scrub, dupes_scrub]

/-- C5 counterexample: a blank row (empty SKU, blank price) whose leftover
PublishStatus still says "Unpublished" qualifies under the claim's
predicate but is not collected into unpublishedSKUs, because the
Validator only scans non-blank rows. -/
theorem c5_counterexample :
    (validate_for_download
      [⟨Cell.str "A", Cell.str "10", Cell.str "Published", Cell.str ""⟩,
        ⟨Cell.str "", Cell.str "", Cell.str "Unpublished", Cell.str ""⟩]).unpublishedSKUs
      = [] ∧
      is_unpublished (Cell.str "Unpublished") = true ∧
      pyStrip (pyStr (Cell.str "Unpublished")) ≠ "SKU Not Found" := by
  decide

/-- C5 (amended): among the NON-BLANK rows, those whose trimmed
PublishStatus contains "unpublished" case-insensitively and is not
"SKU Not Found" are exactly the rows whose SKUs form unpublishedSKUs;
scrubbing those statuses leaves hardErrors unchanged (they contribute
nothing); and any such row with non-empty SKU and positive parsed price
is included in writableRows. -/
theorem c5_unpublished_classification (df : List Row) :
    ((validate_for_download df).unpublishedSKUs
      = ((nonblankRows df).filter (fun r =>
          decide ("unpublished".data <:+: (pyLower (pyStrip (pyStr r.publishStatus))).data)
            && !(notFoundB r))).map skuN) ∧
      ((validate_for_download (df.map scrubUnpublished)).hardErrors
        = (validate_for_download df).hardErrors) ∧
      (∀ r ∈ nonblankRows df, is_unpublished r.publishStatus = true →
        ∀ q, skuN r ≠ "" → npN r = Option.some q → 0 < q →
          (⟨skuN r, q⟩ : WRow) ∈ (validate_for_download df).writableRows) := by
  refine ⟨?_, ?_, ?_⟩
  · by_cases h0 : df.isEmpty = true
    · have he : df = [] := List.isEmpty_iff.mp h0
      subst he
      rfl
    · unfold validate_for_download
      rw [if_neg h0]
      by_cases h1 : (nonblankRows df).isEmpty = true
      · rw [if_pos h1]
        have he : nonblankRows df = [] := List.isEmpty_iff.mp h1
        rw [he]
        rfl
      · rw [if_neg h1]
        show unpublishedOf (nonblankRows df) = _
        unfold unpublishedOf
        congr 1
        apply List.filter_congr
        intro r _
        rw [is_unpublished_eq]
  · unfold validate_for_download
    have hie : (df.map scrubUnpublished).isEmpty = df.isEmpty := by
      cases df <;> rfl
    rw [hie]
    by_cases h0 : df.isEmpty = true
    · rw [if_pos h0, if_pos h0]
    · rw [if_neg h0, if_neg h0, nonblank_scrub]
      have hie2 : ((nonblankRows df).map scrubUnpublished).isEmpty
          = (nonblankRows df).isEmpty := by
        cases (nonblankRows df) <;> rfl
      rw [hie2]
      by_cases h1 : (nonblankRows df).isEmpty = true
      · rw [if_pos h1, if_pos h1]
      · rw [if_neg h1, if_neg h1]
        show hardErrorsOf ((nonblankRows df).map scrubUnpublished)
          = hardErrorsOf (nonblankRows df)
        exact hardErrors_scrub _
  · intro r hr hunp q hne hq hq0
    have h0 : ¬(df.isEmpty = true) := by
      cases df with
      | nil => simp [nonblankRows] at hr
      | cons a l => simp
    have h1 : ¬((nonblankRows df).isEmpty = true) := by
      intro hc
      rw [List.isEmpty_iff.mp hc] at hr
      exact List.not_mem_nil r hr
    unfold validate_for_download
    rw [if_neg h0, if_neg h1]
    show _ ∈ writableOutOf (nonblankRows df)
    unfold writableOutOf
    apply List.mem_map.mpr
    refine ⟨r, List.mem_filter.mpr ⟨hr, ?_⟩, ?_⟩
    · rw [writableFilter_iff]
      exact ⟨hne, ⟨q, hq, hq0⟩, unpub_not_notFound hunp⟩
    · show (⟨skuN r, (npN r).getD 0⟩ : WRow) = ⟨skuN r, q⟩
      rw [hq]
      rfl

/-- C5 witness: a concrete unpublished row with valid SKU and price is
collected and still written. -/
theorem c5_witness :
    (⟨"B", 5⟩ : WRow) ∈ (validate_for_download
      [⟨Cell.str "B", Cell.str "5", Cell.str "Unpublished", Cell.str ""⟩]).writableRows := by
  have h := (c5_unpublished_classification
    [⟨Cell.str "B", Cell.str "5", Cell.str "Unpublished", Cell.str ""⟩]).2.2
    ⟨Cell.str "B", Cell.str "5", Cell.str "Unpublished", Cell.str ""⟩
    (by decide) (by decide) 5 (by decide) (by decide) (by decide)
  exact h

/-! C9 helper lemmas: pointwise behaviour of the clearing and writing
loops of the Template Writer. -/

theorem clearRowCells_apply (w : Cells) (r : ℕ) (c : Char) (r' : ℕ) :
    clearRowCells w r c r' =
      if (c = 'D' ∨ c = 'E' ∨ c = 'F' ∨ c = 'G') ∧ r' = r then Cell.none
      else w c r' := by
  show setCell (setCell (setCell (setCell w 'D' r Cell.none) 'E' r Cell.none)
      'F' r Cell.none) 'G' r Cell.none c r' = _
  unfold setCell
  split_ifs <;> tauto

theorem writeRowCells_apply (w : Cells) (r : ℕ) (x : WRow) (c : Char) (r' : ℕ) :
    writeRowCells w r x c r' =
      if (c = 'E' ∨ c = 'F' ∨ c = 'G') ∧ r' = r then Cell.num x.newPrice
      else if c = 'D' ∧ r' = r then Cell.str (pyStrip x.sku)
      else w c r' := by
  show setCell (setCell (setCell (setCell w 'D' r (Cell.str (pyStrip x.sku)))
      'E' r (Cell.num x.newPrice)) 'F' r (Cell.num x.newPrice))
      'G' r (Cell.num x.newPrice) c r' = _
  unfold setCell
  split_ifs <;> tauto

theorem clearRows_apply (n : ℕ) : ∀ (w : Cells) (r : ℕ) (c : Char) (r' : ℕ),
    clearRows w r n c r' =
      if (c = 'D' ∨ c = 'E' ∨ c = 'F' ∨ c = 'G') ∧ r ≤ r' ∧ r' < r + n then Cell.none
      else w c r' := by
  induction n with
  | zero =>
    intro w r c r'
    show w c r' = _
    rw [if_neg]
    rintro ⟨_, h1, h2⟩
    omega
  | succ n ih =>
    intro w r c r'
    show clearRows (clearRowCells w r) (r + 1) n c r' = _
    rw [ih]
    by_cases hcol : c = 'D' ∨ c = 'E' ∨ c = 'F' ∨ c = 'G'
    · by_cases hin : r + 1 ≤ r' ∧ r' < r + 1 + n
      · rw [if_pos ⟨hcol, hin⟩, if_pos ⟨hcol, by omega⟩]
      · rw [if_neg (by tauto), clearRowCells_apply]
        by_cases hr : r' = r
        · rw [if_pos ⟨hcol, hr⟩, if_pos ⟨hcol, by omega⟩]
        · rw [if_neg (by tauto), if_neg]
          rintro ⟨_, h1, h2⟩
          exact hin ⟨by omega, by omega⟩
    · rw [if_neg (by tauto), clearRowCells_apply, if_neg (by tauto),
        if_neg (by tauto)]

theorem writeRows_out (xs : List WRow) : ∀ (w : Cells) (r : ℕ) (c : Char) (r' : ℕ),
    r' < r ∨ r + xs.length ≤ r' → writeRows w r xs c r' = w c r' := by
  induction xs with
  | nil =>
    intro w r c r' _
    rfl
  | cons x t ih =>
    intro w r c r' h
    simp only [List.length_cons] at h
    show writeRows (writeRowCells w r x) (r + 1) t c r' = _
    rw [ih _ _ _ _ (by omega), writeRowCells_apply]
    rw [if_neg (by rintro ⟨_, hr⟩; omega), if_neg (by rintro ⟨_, hr⟩; omega)]

theorem writeRows_at_D (xs : List WRow) : ∀ (w : Cells) (r : ℕ) (i : ℕ)
    (h : i < xs.length),
    writeRows w r xs 'D' (r + i) = Cell.str (pyStrip (xs.get ⟨i, h⟩).sku) := by
  induction xs with
  | nil =>
    intro w r i h
    exact absurd h (by simp)
  | cons x t ih =>
    intro w r i h
    cases i with
    | zero =>
      show writeRows (writeRowCells w r x) (r + 1) t 'D' (r + 0) = _
      rw [writeRows_out t _ _ _ _ (Or.inl (by omega)), writeRowCells_apply]
      rw [if_neg (by rintro ⟨hc, _⟩; rcases hc with hc | hc | hc <;> exact absurd hc (by decide))]
      rw [if_pos ⟨rfl, rfl⟩]
      rfl
    | succ j =>
      have hidx : r + (j + 1) = (r + 1) + j := by omega
      rw [hidx]
      show writeRows (writeRowCells w r x) (r + 1) t 'D' ((r + 1) + j) = _
      exact ih _ _ j (by simpa using h)

theorem writeRows_at_price (c : Char) (hc : c = 'E' ∨ c = 'F' ∨ c = 'G')
    (xs : List WRow) : ∀ (w : Cells) (r : ℕ) (i : ℕ) (h : i < xs.length),
    writeRows w r xs c (r + i) = Cell.num (xs.get ⟨i, h⟩).newPrice := by
  induction xs with
  | nil =>
    intro w r i h
    exact absurd h (by simp)
  | cons x t ih =>
    intro w r i h
    cases i with
    | zero =>
      show writeRows (writeRowCells w r x) (r + 1) t c (r + 0) = _
      rw [writeRows_out t _ _ _ _ (Or.inl (by omega)), writeRowCells_apply]
      rw [if_pos ⟨hc, rfl⟩]
      rfl
    | succ j =>
      have hidx : r + (j + 1) = (r + 1) + j := by omega
      rw [hidx]
      show writeRows (writeRowCells w r x) (r + 1) t c ((r + 1) + j) = _
      exact ih _ _ j (by simpa using h)

/-- C9: fill_price_template blanks the primary and the three price
columns on every row from the start row through
max(template extent, start row + record count + 50) that is not
overwritten, and writes, in list order, each record's SKU into the
primary column and its price into each of the three price columns, one
row per record from the start row. -/
theorem c9_fill_template (wb : Workbook) (df : List WRow) :
    (∀ c, (c = 'D' ∨ c = 'E' ∨ c = 'F' ∨ c = 'G') → ∀ r,
      START_ROW + df.length ≤ r →
      r ≤ max wb.maxRow (START_ROW + df.length + 50) →
      (fill_price_template wb df).cells c r = Cell.none) ∧
    (∀ i (h : i < df.length),
      (fill_price_template wb df).cells 'D' (START_ROW + i)
        = Cell.str (pyStrip (df.get ⟨i, h⟩).sku) ∧
      ∀ c, (c = 'E' ∨ c = 'F' ∨ c = 'G') →
        (fill_price_template wb df).cells c (START_ROW + i)
          = Cell.num (df.get ⟨i, h⟩).newPrice) := by
  have hM : START_ROW + df.length + 50 ≤ max wb.maxRow (START_ROW + df.length + 50) :=
    le_max_right _ _
  constructor
  · intro c hc r hr1 hr2
    show writeRows (clearRows wb.cells START_ROW
        (max wb.maxRow (START_ROW + df.length + 50) + 1 - START_ROW))
      START_ROW df c r = Cell.none
    rw [writeRows_out df _ _ _ _ (Or.inr hr1), clearRows_apply]
    rw [if_pos ⟨hc, by unfold START_ROW at *; omega, by unfold START_ROW at *; omega⟩]
  · intro i h
    constructor
    · exact writeRows_at_D df _ START_ROW i h
    · intro c hc
      exact writeRows_at_price c hc df _ START_ROW i h

/-- C9 witness: with writable rows [(SKU "A", price 9.99)], the filled
template has "A" in the primary column at the start row, 9.99 in the
three price columns, and the next row blank. -/
theorem c9_witness :
    (fill_price_template ⟨10, fun _ _ => Cell.str "x"⟩
        [⟨"A", (9.99 : ℚ)⟩]).cells 'D' START_ROW = Cell.str "A" ∧
      (fill_price_template ⟨10, fun _ _ => Cell.str "x"⟩
        [⟨"A", (9.99 : ℚ)⟩]).cells 'E' START_ROW = Cell.num (9.99 : ℚ) ∧
      (fill_price_template ⟨10, fun _ _ => Cell.str "x"⟩
        [⟨"A", (9.99 : ℚ)⟩]).cells 'F' START_ROW = Cell.num (9.99 : ℚ) ∧
      (fill_price_template ⟨10, fun _ _ => Cell.str "x"⟩
        [⟨"A", (9.99 : ℚ)⟩]).cells 'G' START_ROW = Cell.num (9.99 : ℚ) ∧
      (fill_price_template ⟨10, fun _ _ => Cell.str "x"⟩
        [⟨"A", (9.99 : ℚ)⟩]).cells 'D' (START_ROW + 1) = Cell.none := by
  have h := c9_fill_template ⟨10, fun _ _ => Cell.str "x"⟩ [⟨"A", (9.99 : ℚ)⟩]
  have hD := (h.2 0 (by decide)).1
  have hE := (h.2 0 (by decide)).2 'E' (Or.inl rfl)
  have hF := (h.2 0 (by decide)).2 'F' (Or.inr (Or.inl rfl))
  have hG := (h.2 0 (by decide)).2 'G' (Or.inr (Or.inr rfl))
  have hclear := h.1 'D' (Or.inl rfl) (START_ROW + 1) (by decide) (by decide)
  exact ⟨hD.trans (by decide), hE, hF, hG, hclear⟩

end PriceUpdate
